import Mathlib

/-!
Verification of the request/response bridge in `src/streamlit_app.py`.

The dispatcher `process_client_request` is a Python generator: it parses a
JSON request string, routes it by declared type to one of three backend
adapters, and yields JSON-serialized envelopes.  We embed it shallowly:

* JSON/Python values become the inductive `JValue`.  `json.loads` is total
  on strings and returns either a parse failure or a value, so the
  dispatcher is modelled as a function of the parse outcome
  `Except String JValue` (the `String` is the parser's error message);
  quantifying over that outcome covers every input string.
* Nondeterministic environment reads (`uuid.uuid4()`, `datetime.utcnow()`,
  `datetime.now()`) become fields of an explicit `Env` parameter.
* `st.*` UI calls and `time.sleep` have no effect on the yielded sequence
  and are dropped.
* Python's `dict.get` raises `AttributeError` on non-dict receivers; this
  is modelled by `pyGet` returning `Except`.  The generator adapters
  (`backend_stream_subscribe`, `backend_execute_command`) can only fail on
  their very first pull (at `payload.get`), before yielding anything, so
  they are modelled as `Except String (List JValue)`: either an upfront
  failure or the full finite chunk list.
* The `except` block reads `locals().get("request_id", "unknown")`:
  `request_id` is bound exactly when `header.get("request_id", ...)`
  succeeded, so failures carry an `Option JValue` recording that binding.
* The generator yields `json.dumps` of each envelope dict; we model the
  sequence of envelope values themselves (serialization is injective on
  these dicts and no claim is about the raw text).
* Python floats appear only in the `progress` field, where the values
  `(i+1)/4*100` are exactly 25.0, 50.0, 75.0, 100.0; they are represented
  by the integers 25, 50, 75, 100 (no claim inspects `progress`).
* Exact `str(e)` message text of Python exceptions is reproduced for
  `AttributeError` and the unknown-type `ValueError` shape; no claim
  depends on message wording.
-/

/-- Python/JSON values as produced by `json.loads`.  Numbers are modelled
as integers (see the header comment on floats). -/
inductive JValue : Type where
  | null : JValue
  | bool (b : Bool) : JValue
  | num (n : Int) : JValue
  | str (s : String) : JValue
  | arr (items : List JValue) : JValue
  | obj (fields : List (String × JValue)) : JValue

/-- Lookup in a parsed JSON object.  Python's `json.loads` keeps the last
binding for a duplicated key, so the later binding wins. -/
def lookupLast : List (String × JValue) → String → Option JValue
  | [], _ => none
  | (k, v) :: rest, key =>
    match lookupLast rest key with
    | some v2 => some v2
    | none => if k = key then some v else none

/-- The Python type name of a value, as it appears in `AttributeError`
messages. -/
def typeName : JValue → String
  | .null => "NoneType"
  | .bool _ => "bool"
  | .num _ => "int"
  | .str _ => "str"
  | .arr _ => "list"
  | .obj _ => "dict"

/-- Python `v.get(key, dflt)`: returns the stored value (or the default)
when `v` is a dict, and raises `AttributeError` otherwise. -/
def pyGet (v : JValue) (key : String) (dflt : JValue) : Except String JValue :=
  match v with
  | .obj fields => .ok ((lookupLast fields key).getD dflt)
  | _ => .error ("'" ++ typeName v ++ "' object has no attribute 'get'")

/-- Python `str(v)` as used inside f-strings.  Exact for strings, `None`,
booleans and integers; container `repr` text is not reproduced (no claim
depends on it). -/
def pyStr : JValue → String
  | .null => "None"
  | .bool true => "True"
  | .bool false => "False"
  | .num n => toString n
  | .str s => s
  | .arr _ => "<list>"
  | .obj _ => "<dict>"

/-- Field access on a JSON object value (plain lookup, `none` off dicts). -/
def JValue.lookup (v : JValue) (key : String) : Option JValue :=
  match v with
  | .obj fields => lookupLast fields key
  | _ => none

/-- The environment reads the dispatcher makes: one `uuid.uuid4()` draw,
the `datetime.utcnow()` draw at response-header construction, the
`datetime.utcnow()` draw at error-header construction, and the successive
`datetime.now()` draws made inside the adapters. -/
structure Env : Type where
  freshUuid : String
  headerTs : String
  errorTs : String
  nowTs : Nat → String

/-- One yielded response unit: the dict
`{"header": ..., "status": ..., "payload": ...}` built by the dispatcher. -/
structure Envelope : Type where
  header : JValue
  status : String
  payload : JValue

/-- `backend_one_time_query` (src/streamlit_app.py lines 11-25): unary
adapter.  Reads `endpoint`, `params`, then `params.get("id", "N/A")`. -/
def backend_one_time_query (env : Env) (payload : JValue) :
    Except String JValue := do
  let endpoint ← pyGet payload "endpoint" (.str "unknown")
  let params ← pyGet payload "params" (.obj [])
  let user_id ← pyGet params "id" (.str "N/A")
  .ok (.obj [
    ("status", .str "ok"),
    ("data", .obj [
      ("endpoint", endpoint),
      ("user_id", user_id),
      ("retrieved_at", .str (env.nowTs 0)),
      ("query_result",
        .str ("This is the result for query " ++ pyStr endpoint ++ "."))])])

/-- `backend_stream_subscribe` (lines 27-42): data-stream adapter yielding
10 chunks, `sequence` running 0..9. -/
def backend_stream_subscribe (env : Env) (payload : JValue) :
    Except String (List JValue) := do
  let topic ← pyGet payload "topic" (.str "default_topic")
  .ok ((List.range 10).map (fun i =>
    .obj [("stream_chunk", .obj [
      ("topic", topic),
      ("sequence", .num (Int.ofNat i)),
      ("value",
        .str ("Live data point #" ++ toString i ++ " for " ++ pyStr topic)),
      ("timestamp", .str (env.nowTs i))])]))

/-- The four phases of the mock command (line 50). -/
def commandSteps : List String :=
  ["initializing", "processing", "validating", "finalizing"]

/-- `backend_execute_command` (lines 44-68): progress-stream adapter
yielding one `progress_update` per step and then one `command_result`.
`(i+1)/len(steps)*100` is the exact float `(i+1)*25`, kept as an integer. -/
def backend_execute_command (_env : Env) (payload : JValue) :
    Except String (List JValue) := do
  let command ← pyGet payload "command" (.str "unknown_command")
  .ok ((commandSteps.enum.map (fun p =>
      .obj [("progress_update", .obj [
        ("command", command),
        ("step", .str p.2),
        ("progress", .num ((Int.ofNat p.1 + 1) * 100 / 4))])])) ++
    [.obj [("command_result", .obj [
      ("command", command),
      ("status", .str "success"),
      ("message", .str "Command executed successfully.")])]])

/-- The constant `source_node` of this bridge instance (lines 88 and 140). -/
def sourceNode : String := "streamlit-bridge-v1"

/-- The response header built once per request (lines 86-90). -/
def mkResponseHeader (request_id : JValue) (ts : String) : JValue :=
  .obj [
    ("request_id", request_id),
    ("source_node", .str sourceNode),
    ("timestamp_utc", .str ts)]

/-- Lines 79-80: `header = request.get("header", {})` then
`request_id = header.get("request_id", str(uuid.uuid4()))`.  The UUID is
the default argument of `.get`: it is substituted only when the key is
absent. -/
def extractRequestId (env : Env) (request : JValue) : Except String JValue := do
  let header ← pyGet request "header" (.obj [])
  pyGet header "request_id" (.str env.freshUuid)

/-- Whether a value is a Python dict / JSON object. -/
def JValue.isObj : JValue → Bool
  | .obj _ => true
  | _ => false

/-- Lines 81-133: extract `type` and `payload`, build the response header,
and branch on the type, producing the envelope list of the happy path or
the failure that the `except` block will convert.  The Python `if/elif`
chain compares `request_type` with three distinct string literals, which
is exactly this match (a non-`str` value falls through to `else`). -/
def routeRequest (env : Env) (request_id : JValue) (request : JValue) :
    Except String (List Envelope) := do
  let request_type ← pyGet request "type" .null
  let payload ← pyGet request "payload" (.obj [])
  let response_header := mkResponseHeader request_id env.headerTs
  match request_type with
  | .str "ONE_TIME_QUERY" => do
    let result_payload ← backend_one_time_query env payload
    .ok [⟨response_header, "COMPLETED", result_payload⟩]
  | .str "STREAM_SUBSCRIBE" => do
    let chunks ← backend_stream_subscribe env payload
    .ok (chunks.map (fun c => ⟨response_header, "STREAMING_CHUNK", c⟩) ++
      [⟨response_header, "COMPLETED", .obj [("message", .str "Stream finished.")]⟩])
  | .str "EXECUTE_COMMAND" => do
    let chunks ← backend_execute_command env payload
    .ok (chunks.map (fun c => ⟨response_header, "STREAMING_CHUNK", c⟩) ++
      [⟨response_header, "COMPLETED", .obj [("message", .str "Command finished.")]⟩])
  | _ =>
    .error ("Unknown request type: " ++ pyStr request_type)

/-- The `try` body (lines 77-133).  A failure carries the value of
`request_id` if that local was already bound when the exception was
raised (`locals().get("request_id", ...)` on line 139), together with the
exception message. -/
def runBody (env : Env) (parsed : Except String JValue) :
    Except (Option JValue × String) (List Envelope) :=
  match parsed with
  | .error msg => .error (none, msg)
  | .ok request =>
    match extractRequestId env request with
    | .error msg => .error (none, msg)
    | .ok request_id =>
      match routeRequest env request_id request with
      | .error msg => .error (some request_id, msg)
      | .ok envs => .ok envs

/-- The ERROR envelope built in the `except` block (lines 138-152): an
independently constructed header using the bound `request_id` or the
literal `"unknown"`, with its own timestamp draw. -/
def errorEnvelope (env : Env) (bound : Option JValue) (msg : String) :
    Envelope :=
  ⟨.obj [
      ("request_id", bound.getD (.str "unknown")),
      ("source_node", .str sourceNode),
      ("timestamp_utc", .str env.errorTs)],
    "ERROR",
    .obj [("error", .obj [
      ("code", .str "BRIDGE_PROCESSING_ERROR"),
      ("message", .str msg)])]⟩

/-- `process_client_request` (lines 72-152): the dispatcher.  Total — any
failure of the body becomes exactly one ERROR envelope. -/
def process_client_request (env : Env) (parsed : Except String JValue) :
    List Envelope :=
  match runBody env parsed with
  | .ok envs => envs
  | .error (bound, msg) => [errorEnvelope env bound msg]

/-! ## Shared lemmas about the dispatch pipeline -/

/-- A placeholder envelope used as the default of `List.headD`/`List.getD`
in statements about concrete positions. -/
def noEnvelope : Envelope := ⟨.null, "", .null⟩

/-- Every successful run of `routeRequest` produces some streaming chunks
followed by one COMPLETED envelope, all sharing the one response header. -/
theorem routeRequest_ok_shape (env : Env) (rid request : JValue)
    (envs : List Envelope) (h : routeRequest env rid request = .ok envs) :
    (∃ pre last, envs = pre ++ [last] ∧
      (∀ e ∈ pre, e.status = "STREAMING_CHUNK") ∧
      last.status = "COMPLETED") ∧
    (∀ e ∈ envs, e.header = mkResponseHeader rid env.headerTs) := by
  simp only [routeRequest, bind, Except.bind] at h
  split at h
  · exact absurd h (by simp)
  · rename_i request_type hty
    split at h
    · exact absurd h (by simp)
    · rename_i payload hpl
      split at h
      · -- ONE_TIME_QUERY
        split at h
        · exact absurd h (by simp)
        · rename_i result hres
          cases h
          refine ⟨⟨[], _, rfl, by simp, rfl⟩, by simp⟩
      · -- STREAM_SUBSCRIBE
        split at h
        · exact absurd h (by simp)
        · rename_i chunks hch
          cases h
          refine ⟨⟨_, _, rfl, ?_, rfl⟩, ?_⟩
          · intro e he
            simp only [List.mem_map] at he
            obtain ⟨c, _, rfl⟩ := he
            rfl
          · intro e he
            simp only [List.mem_append, List.mem_map, List.mem_singleton] at he
            rcases he with ⟨c, _, rfl⟩ | rfl <;> rfl
      · -- EXECUTE_COMMAND
        split at h
        · exact absurd h (by simp)
        · rename_i chunks hch
          cases h
          refine ⟨⟨_, _, rfl, ?_, rfl⟩, ?_⟩
          · intro e he
            simp only [List.mem_map] at he
            obtain ⟨c, _, rfl⟩ := he
            rfl
          · intro e he
            simp only [List.mem_append, List.mem_map, List.mem_singleton] at he
            rcases he with ⟨c, _, rfl⟩ | rfl <;> rfl
      · exact absurd h (by simp)

/-- A successful `runBody` decomposes into a successful parse, request-id
extraction and routing. -/
theorem runBody_ok_cases (env : Env) (parsed : Except String JValue)
    (envs : List Envelope) (h : runBody env parsed = .ok envs) :
    ∃ request rid, parsed = .ok request ∧
      extractRequestId env request = .ok rid ∧
      routeRequest env rid request = .ok envs := by
  cases parsed with
  | error msg => simp [runBody] at h
  | ok request =>
    cases hex : extractRequestId env request with
    | error m => simp [runBody, hex] at h
    | ok rid =>
      cases hrt : routeRequest env rid request with
      | error m => simp [runBody, hex, hrt] at h
      | ok envs2 =>
        simp only [runBody, hex, hrt, Except.ok.injEq] at h
        exact ⟨request, rid, rfl, hex, h ▸ hrt⟩

/-- A failing `runBody` makes the dispatcher yield exactly the one ERROR
envelope of the `except` block. -/
theorem process_of_runBody_error (env : Env) (parsed : Except String JValue)
    (bound : Option JValue) (msg : String)
    (h : runBody env parsed = .error (bound, msg)) :
    process_client_request env parsed = [errorEnvelope env bound msg] := by
  unfold process_client_request
  rw [h]

/-! ## The claims -/

/-- C1: for every input (any parse outcome), the dispatcher's output is
non-empty and consists of zero or more STREAMING_CHUNK envelopes followed
by exactly one terminal envelope (COMPLETED or ERROR), with nothing after
it; no raw failure escapes (`process_client_request` is total, returning
a plain list). -/
theorem c1_terminal_envelope_invariant (env : Env)
    (parsed : Except String JValue) :
    ∃ pre last,
      process_client_request env parsed = pre ++ [last] ∧
      (∀ e ∈ pre, e.status = "STREAMING_CHUNK") ∧
      (last.status = "COMPLETED" ∨ last.status = "ERROR") := by
  cases hrb : runBody env parsed with
  | error p =>
    obtain ⟨bound, msg⟩ := p
    refine ⟨[], errorEnvelope env bound msg, ?_, by simp, Or.inr rfl⟩
    simpa using process_of_runBody_error env parsed bound msg hrb
  | ok envs =>
    obtain ⟨request, rid, hpar, hex, hrt⟩ := runBody_ok_cases env parsed envs hrb
    obtain ⟨⟨pre, last, hsplit, hpre, hlast⟩, _⟩ :=
      routeRequest_ok_shape env rid request envs hrt
    refine ⟨pre, last, ?_, hpre, Or.inl hlast⟩
    unfold process_client_request
    rw [hrb, hsplit]

/-- C7: all envelopes of one response share one header value; that header
carries the fixed `source_node`, and its timestamp is the single
header-construction draw on the success path but the independent
error-path draw when the body failed. -/
theorem c7_single_header_per_response (env : Env)
    (parsed : Except String JValue) :
    ∃ h : JValue,
      (∀ e ∈ process_client_request env parsed, e.header = h) ∧
      h.lookup "source_node" = some (.str sourceNode) ∧
      h.lookup "timestamp_utc" = some (.str (match runBody env parsed with
        | .ok _ => env.headerTs
        | .error _ => env.errorTs)) := by
  cases hrb : runBody env parsed with
  | error p =>
    obtain ⟨bound, msg⟩ := p
    refine ⟨(errorEnvelope env bound msg).header, ?_, rfl, ?_⟩
    · rw [process_of_runBody_error env parsed bound msg hrb]
      simp
    · rfl
  | ok envs =>
    obtain ⟨request, rid, hpar, hex, hrt⟩ := runBody_ok_cases env parsed envs hrb
    obtain ⟨_, hhd⟩ := routeRequest_ok_shape env rid request envs hrt
    refine ⟨mkResponseHeader rid env.headerTs, ?_, rfl, ?_⟩
    · intro e he
      apply hhd
      unfold process_client_request at he
      rw [hrb] at he
      exact he
    · rfl

/-- Unfolding of `extractRequestId` from its two `.get` outcomes. -/
theorem extractRequestId_eq (env : Env) (request hdr rid : JValue)
    (hh : pyGet request "header" (.obj []) = .ok hdr)
    (hr : pyGet hdr "request_id" (.str env.freshUuid) = .ok rid) :
    extractRequestId env request = .ok rid := by
  unfold extractRequestId
  rw [hh]
  simpa [bind, Except.bind] using hr

/-- A successful body makes the dispatcher yield exactly its envelopes. -/
theorem process_of_runBody_ok (env : Env) (parsed : Except String JValue)
    (envs : List Envelope) (h : runBody env parsed = .ok envs) :
    process_client_request env parsed = envs := by
  unfold process_client_request
  rw [h]

/-- `runBody` on a parsed request whose extraction and routing succeed. -/
theorem runBody_eq_of (env : Env) (request rid : JValue)
    (envs : List Envelope)
    (hex : extractRequestId env request = .ok rid)
    (hrt : routeRequest env rid request = .ok envs) :
    runBody env (.ok request) = .ok envs := by
  simp only [runBody, hex, hrt]

/-- Routing a `ONE_TIME_QUERY` request wraps the unary adapter's result as
one COMPLETED envelope. -/
theorem routeRequest_one_time (env : Env) (rid request payload result : JValue)
    (ht : pyGet request "type" .null = .ok (.str "ONE_TIME_QUERY"))
    (hp : pyGet request "payload" (.obj []) = .ok payload)
    (hb : backend_one_time_query env payload = .ok result) :
    routeRequest env rid request =
      .ok [⟨mkResponseHeader rid env.headerTs, "COMPLETED", result⟩] := by
  unfold routeRequest
  rw [ht]
  simp only [bind, Except.bind]
  rw [hp]
  simp only [hb]

/-- Routing a `STREAM_SUBSCRIBE` request wraps each adapter chunk as a
STREAMING_CHUNK envelope and appends the COMPLETED terminal. -/
theorem routeRequest_stream (env : Env) (rid request payload : JValue)
    (chunks : List JValue)
    (ht : pyGet request "type" .null = .ok (.str "STREAM_SUBSCRIBE"))
    (hp : pyGet request "payload" (.obj []) = .ok payload)
    (hb : backend_stream_subscribe env payload = .ok chunks) :
    routeRequest env rid request =
      .ok (chunks.map
            (fun c => ⟨mkResponseHeader rid env.headerTs, "STREAMING_CHUNK", c⟩) ++
        [⟨mkResponseHeader rid env.headerTs, "COMPLETED",
          .obj [("message", .str "Stream finished.")]⟩]) := by
  unfold routeRequest
  rw [ht]
  simp only [bind, Except.bind]
  rw [hp]
  simp only [hb]

/-- Routing an `EXECUTE_COMMAND` request wraps each adapter item as a
STREAMING_CHUNK envelope and appends the COMPLETED terminal. -/
theorem routeRequest_execute (env : Env) (rid request payload : JValue)
    (chunks : List JValue)
    (ht : pyGet request "type" .null = .ok (.str "EXECUTE_COMMAND"))
    (hp : pyGet request "payload" (.obj []) = .ok payload)
    (hb : backend_execute_command env payload = .ok chunks) :
    routeRequest env rid request =
      .ok (chunks.map
            (fun c => ⟨mkResponseHeader rid env.headerTs, "STREAMING_CHUNK", c⟩) ++
        [⟨mkResponseHeader rid env.headerTs, "COMPLETED",
          .obj [("message", .str "Command finished.")]⟩]) := by
  unfold routeRequest
  rw [ht]
  simp only [bind, Except.bind]
  rw [hp]
  simp only [hb]

/-- Routing a request whose type is outside the recognized set raises the
unknown-type `ValueError`. -/
theorem routeRequest_unknown (env : Env) (rid request payload ty : JValue)
    (ht : pyGet request "type" .null = .ok ty)
    (hp : pyGet request "payload" (.obj []) = .ok payload)
    (h1 : ty ≠ .str "ONE_TIME_QUERY")
    (h2 : ty ≠ .str "STREAM_SUBSCRIBE")
    (h3 : ty ≠ .str "EXECUTE_COMMAND") :
    routeRequest env rid request =
      .error ("Unknown request type: " ++ pyStr ty) := by
  unfold routeRequest
  rw [ht]
  simp only [bind, Except.bind]
  rw [hp]

/-- C3: a valid `ONE_TIME_QUERY` request (extraction and unary adapter
succeed) yields exactly one envelope, with status COMPLETED and the
extracted `request_id` (the request's own id, or the fresh UUID default
when the field was absent — hypothesis `hr`) in its header. -/
theorem c3_one_time_query_single_completed (env : Env)
    (request hdr rid payload result : JValue)
    (hh : pyGet request "header" (.obj []) = .ok hdr)
    (hr : pyGet hdr "request_id" (.str env.freshUuid) = .ok rid)
    (ht : pyGet request "type" .null = .ok (.str "ONE_TIME_QUERY"))
    (hp : pyGet request "payload" (.obj []) = .ok payload)
    (hb : backend_one_time_query env payload = .ok result) :
    (process_client_request env (.ok request)).length = 1 ∧
    ((process_client_request env (.ok request)).headD noEnvelope).status =
      "COMPLETED" ∧
    ((process_client_request env (.ok request)).headD
      noEnvelope).header.lookup "request_id" = some rid := by
  have hout : process_client_request env (.ok request) =
      [⟨mkResponseHeader rid env.headerTs, "COMPLETED", result⟩] :=
    process_of_runBody_ok _ _ _
      (runBody_eq_of env request rid _
        (extractRequestId_eq env request hdr rid hh hr)
        (routeRequest_one_time env rid request payload result ht hp hb))
  rw [hout]
  exact ⟨rfl, rfl, rfl⟩

/-- Concrete instance of the `ONE_TIME_QUERY` claim. -/
def envW : Env := ⟨"uuid-w", "TS1", "TS2", fun i => "NOW" ++ toString i⟩

/-- A well-formed `ONE_TIME_QUERY` request used as concrete instance. -/
def reqQuery : JValue := .obj [
  ("header", .obj [("request_id", .str "r1")]),
  ("type", .str "ONE_TIME_QUERY"),
  ("payload", .obj [("endpoint", .str "e1")])]

/-- Witness: the `ONE_TIME_QUERY` theorem applied to a concrete request. -/
theorem c3_witness :
    (process_client_request envW (.ok reqQuery)).length = 1 ∧
    ((process_client_request envW (.ok reqQuery)).headD noEnvelope).status =
      "COMPLETED" ∧
    ((process_client_request envW (.ok reqQuery)).headD
      noEnvelope).header.lookup "request_id" = some (.str "r1") :=
  c3_one_time_query_single_completed envW reqQuery
    (.obj [("request_id", .str "r1")]) (.str "r1")
    (.obj [("endpoint", .str "e1")])
    (.obj [
      ("status", .str "ok"),
      ("data", .obj [
        ("endpoint", .str "e1"),
        ("user_id", .str "N/A"),
        ("retrieved_at", .str "NOW0"),
        ("query_result", .str "This is the result for query e1.")])])
    rfl rfl rfl rfl rfl

/-- C5: a malformed input (parse failure, any message) yields exactly one
envelope: status ERROR, error code `BRIDGE_PROCESSING_ERROR`, and the
literal `"unknown"` request id (nothing was extracted before failure). -/
theorem c5_malformed_json_single_error (env : Env) (msg : String) :
    process_client_request env (.error msg) = [errorEnvelope env none msg] ∧
    (process_client_request env (.error msg)).length = 1 ∧
    ((process_client_request env (.error msg)).headD noEnvelope).status =
      "ERROR" ∧
    (((process_client_request env (.error msg)).headD
        noEnvelope).payload.lookup "error").bind (fun e => e.lookup "code") =
      some (.str "BRIDGE_PROCESSING_ERROR") ∧
    ((process_client_request env (.error msg)).headD
      noEnvelope).header.lookup "request_id" = some (.str "unknown") := by
  have h : runBody env (.error msg) = .error (none, msg) := rfl
  rw [process_of_runBody_error env _ none msg h]
  exact ⟨rfl, rfl, rfl, rfl, rfl⟩

/-- C2: a valid `STREAM_SUBSCRIBE` request whose adapter yields `N` chunks
produces exactly `N + 1` envelopes: the first `N` are STREAMING_CHUNK,
the `i`-th wrapping a `stream_chunk` with `sequence = i` (so the values
run 0..N-1 in increasing order), followed by one COMPLETED envelope with
payload `{message: "Stream finished."}`. -/
theorem c2_stream_subscribe_chunks_then_completed (env : Env)
    (request hdr rid payload : JValue) (chunks : List JValue)
    (hh : pyGet request "header" (.obj []) = .ok hdr)
    (hr : pyGet hdr "request_id" (.str env.freshUuid) = .ok rid)
    (ht : pyGet request "type" .null = .ok (.str "STREAM_SUBSCRIBE"))
    (hp : pyGet request "payload" (.obj []) = .ok payload)
    (hc : backend_stream_subscribe env payload = .ok chunks) :
    (process_client_request env (.ok request)).length = chunks.length + 1 ∧
    (∀ i : Nat, i < chunks.length →
      ((process_client_request env (.ok request)).getD i noEnvelope).status =
        "STREAMING_CHUNK" ∧
      (((process_client_request env (.ok request)).getD i
          noEnvelope).payload.lookup "stream_chunk").bind
        (fun c => c.lookup "sequence") = some (.num (Int.ofNat i))) ∧
    ((process_client_request env (.ok request)).getD chunks.length
      noEnvelope).status = "COMPLETED" ∧
    ((process_client_request env (.ok request)).getD chunks.length
      noEnvelope).payload = .obj [("message", .str "Stream finished.")] := by
  have hout : process_client_request env (.ok request) =
      chunks.map (fun c =>
        ⟨mkResponseHeader rid env.headerTs, "STREAMING_CHUNK", c⟩) ++
      [⟨mkResponseHeader rid env.headerTs, "COMPLETED",
        .obj [("message", .str "Stream finished.")]⟩] :=
    process_of_runBody_ok _ _ _
      (runBody_eq_of env request rid _
        (extractRequestId_eq env request hdr rid hh hr)
        (routeRequest_stream env rid request payload chunks ht hp hc))
  obtain ⟨topic, htp, hch⟩ :
      ∃ topic, pyGet payload "topic" (.str "default_topic") = .ok topic ∧
        chunks = (List.range 10).map (fun i =>
          .obj [("stream_chunk", .obj [
            ("topic", topic),
            ("sequence", .num (Int.ofNat i)),
            ("value", .str ("Live data point #" ++ toString i ++ " for " ++
              pyStr topic)),
            ("timestamp", .str (env.nowTs i))])]) := by
    unfold backend_stream_subscribe at hc
    cases htp : pyGet payload "topic" (.str "default_topic") with
    | error m => rw [htp] at hc; exact absurd hc (by simp [bind, Except.bind])
    | ok topic =>
      rw [htp] at hc
      simp only [bind, Except.bind, Except.ok.injEq] at hc
      exact ⟨topic, rfl, hc.symm⟩
  refine ⟨?_, ?_, ?_, ?_⟩
  · rw [hout]
    simp
  · intro i hi
    have hlen : i < (chunks.map (fun c =>
        (⟨mkResponseHeader rid env.headerTs, "STREAMING_CHUNK", c⟩ :
          Envelope))).length := by simpa using hi
    have hidx : (process_client_request env (.ok request)).getD i noEnvelope =
        ⟨mkResponseHeader rid env.headerTs, "STREAMING_CHUNK",
          chunks.getD i .null⟩ := by
      rw [hout]
      rw [List.getD_append _ _ _ _ hlen]
      simp only [List.getD_eq_getElem?_getD, List.getElem?_map]
      rw [(List.getElem?_eq_getElem (by simpa using hi) :
        chunks[i]? = some (chunks[i]))]
      simp [List.getD_eq_getElem?_getD, List.getElem?_eq_getElem,
        (by simpa using hi : i < chunks.length)]
    rw [hidx]
    refine ⟨rfl, ?_⟩
    have hchunk : chunks.getD i .null = .obj [("stream_chunk", .obj [
        ("topic", topic),
        ("sequence", .num (Int.ofNat i)),
        ("value", .str ("Live data point #" ++ toString i ++ " for " ++
          pyStr topic)),
        ("timestamp", .str (env.nowTs i))])] := by
      have hi10 : i < 10 := by
        have := hi
        rw [hch] at this
        simpa using this
      rw [hch]
      simp [List.getD_eq_getElem?_getD, List.getElem?_map,
        List.getElem?_range, hi10]
    rw [hchunk]
    rfl
  · have : (process_client_request env (.ok request)).getD chunks.length
        noEnvelope =
        ⟨mkResponseHeader rid env.headerTs, "COMPLETED",
          .obj [("message", .str "Stream finished.")]⟩ := by
      rw [hout]
      have hl : (chunks.map (fun c =>
          (⟨mkResponseHeader rid env.headerTs, "STREAMING_CHUNK", c⟩ :
            Envelope))).length = chunks.length := by simp
      rw [← hl]
      simp [List.getD_eq_getElem?_getD, List.getElem?_concat_length]
    rw [this]
  · have : (process_client_request env (.ok request)).getD chunks.length
        noEnvelope =
        ⟨mkResponseHeader rid env.headerTs, "COMPLETED",
          .obj [("message", .str "Stream finished.")]⟩ := by
      rw [hout]
      have hl : (chunks.map (fun c =>
          (⟨mkResponseHeader rid env.headerTs, "STREAMING_CHUNK", c⟩ :
            Envelope))).length = chunks.length := by simp
      rw [← hl]
      simp [List.getD_eq_getElem?_getD, List.getElem?_concat_length]
    rw [this]

/-- C4: a valid `EXECUTE_COMMAND` request yields STREAMING_CHUNK envelopes
wrapping `progress_update` items, then one STREAMING_CHUNK wrapping the
`command_result` (the CommandResult is a chunk, never the terminal), then
exactly one COMPLETED envelope with payload
`{message: "Command finished."}` and nothing after it. -/
theorem c4_execute_command_shape (env : Env)
    (request hdr rid payload command : JValue)
    (hh : pyGet request "header" (.obj []) = .ok hdr)
    (hr : pyGet hdr "request_id" (.str env.freshUuid) = .ok rid)
    (ht : pyGet request "type" .null = .ok (.str "EXECUTE_COMMAND"))
    (hp : pyGet request "payload" (.obj []) = .ok payload)
    (hcmd : pyGet payload "command" (.str "unknown_command") = .ok command) :
    ∃ (pre : List JValue) (resultPayload : JValue),
      process_client_request env (.ok request) =
        pre.map (fun p =>
          ⟨mkResponseHeader rid env.headerTs, "STREAMING_CHUNK",
            .obj [("progress_update", p)]⟩) ++
        [⟨mkResponseHeader rid env.headerTs, "STREAMING_CHUNK",
          .obj [("command_result", resultPayload)]⟩,
         ⟨mkResponseHeader rid env.headerTs, "COMPLETED",
          .obj [("message", .str "Command finished.")]⟩] := by
  have hb : backend_execute_command env payload =
      .ok ((commandSteps.enum.map (fun p =>
          .obj [("progress_update", .obj [
            ("command", command),
            ("step", .str p.2),
            ("progress", .num ((Int.ofNat p.1 + 1) * 100 / 4))])])) ++
        [.obj [("command_result", .obj [
          ("command", command),
          ("status", .str "success"),
          ("message", .str "Command executed successfully.")])]]) := by
    unfold backend_execute_command
    rw [hcmd]
    simp [bind, Except.bind]
  have hout := process_of_runBody_ok _ _ _
    (runBody_eq_of env request rid _
      (extractRequestId_eq env request hdr rid hh hr)
      (routeRequest_execute env rid request payload _ ht hp hb))
  refine ⟨commandSteps.enum.map (fun p => .obj [
      ("command", command),
      ("step", .str p.2),
      ("progress", .num ((Int.ofNat p.1 + 1) * 100 / 4))]),
    .obj [
      ("command", command),
      ("status", .str "success"),
      ("message", .str "Command executed successfully.")], ?_⟩
  rw [hout]
  simp [List.map_map, Function.comp]

/-- C6: a parsed request whose type is absent (`None` default) or outside
the recognized set yields exactly one ERROR envelope whose header carries
the recovered `request_id` (not `"unknown"`). -/
theorem c6_unrecognized_type_single_error (env : Env)
    (request hdr rid ty payload : JValue)
    (hh : pyGet request "header" (.obj []) = .ok hdr)
    (hr : pyGet hdr "request_id" (.str env.freshUuid) = .ok rid)
    (ht : pyGet request "type" .null = .ok ty)
    (hp : pyGet request "payload" (.obj []) = .ok payload)
    (h1 : ty ≠ .str "ONE_TIME_QUERY")
    (h2 : ty ≠ .str "STREAM_SUBSCRIBE")
    (h3 : ty ≠ .str "EXECUTE_COMMAND") :
    process_client_request env (.ok request) =
      [errorEnvelope env (some rid) ("Unknown request type: " ++ pyStr ty)] ∧
    (process_client_request env (.ok request)).length = 1 ∧
    ((process_client_request env (.ok request)).headD noEnvelope).status =
      "ERROR" ∧
    ((process_client_request env (.ok request)).headD
      noEnvelope).header.lookup "request_id" = some rid := by
  have hrb : runBody env (.ok request) =
      .error (some rid, "Unknown request type: " ++ pyStr ty) := by
    simp only [runBody, extractRequestId_eq env request hdr rid hh hr,
      routeRequest_unknown env rid request payload ty ht hp h1 h2 h3]
  rw [process_of_runBody_error _ _ _ _ hrb]
  exact ⟨rfl, rfl, rfl, rfl⟩

/-- C10: a parsed JSON object whose `header` field is present but not a
mapping makes `header.get` raise before `request_id` is bound, so the
dispatcher yields exactly one ERROR envelope with the literal `"unknown"`
request id even though parsing succeeded. -/
theorem c10_nonmapping_header_unknown_id (env : Env)
    (fields : List (String × JValue)) (hdr : JValue)
    (hh : lookupLast fields "header" = some hdr)
    (hno : hdr.isObj = false) :
    process_client_request env (.ok (.obj fields)) =
      [errorEnvelope env none
        ("'" ++ typeName hdr ++ "' object has no attribute 'get'")] ∧
    (process_client_request env (.ok (.obj fields))).length = 1 ∧
    ((process_client_request env (.ok (.obj fields))).headD
      noEnvelope).status = "ERROR" ∧
    ((process_client_request env (.ok (.obj fields))).headD
      noEnvelope).header.lookup "request_id" = some (.str "unknown") := by
  have hex : extractRequestId env (.obj fields) =
      .error ("'" ++ typeName hdr ++ "' object has no attribute 'get'") := by
    unfold extractRequestId
    have h1 : pyGet (.obj fields) "header" (.obj []) = .ok hdr := by
      simp [pyGet, hh]
    rw [h1]
    simp only [bind, Except.bind]
    cases hdr with
    | obj fs => simp [JValue.isObj] at hno
    | null => rfl
    | bool b => rfl
    | num n => rfl
    | str s => rfl
    | arr xs => rfl
  have hrb : runBody env (.ok (.obj fields)) =
      .error (none, "'" ++ typeName hdr ++ "' object has no attribute 'get'") := by
    simp only [runBody, hex]
  rw [process_of_runBody_error _ _ _ _ hrb]
  exact ⟨rfl, rfl, rfl, rfl⟩

/-- Witness request for the terminal-invariant claim: malformed input. -/
theorem c1_witness :
    ∃ pre last,
      process_client_request envW (.error "Expecting value") = pre ++ [last] ∧
      (∀ e ∈ pre, e.status = "STREAMING_CHUNK") ∧
      (last.status = "COMPLETED" ∨ last.status = "ERROR") :=
  c1_terminal_envelope_invariant envW (.error "Expecting value")

/-- A well-formed `STREAM_SUBSCRIBE` request used as concrete instance. -/
def reqStream : JValue := .obj [
  ("header", .obj [("request_id", .str "r2")]),
  ("type", .str "STREAM_SUBSCRIBE"),
  ("payload", .obj [("topic", .str "t1")])]

/-- The chunk list the data-stream adapter produces for `reqStream`. -/
def streamChunksW : List JValue :=
  (List.range 10).map (fun i =>
    .obj [("stream_chunk", .obj [
      ("topic", .str "t1"),
      ("sequence", .num (Int.ofNat i)),
      ("value", .str ("Live data point #" ++ toString i ++ " for " ++
        pyStr (.str "t1"))),
      ("timestamp", .str (envW.nowTs i))])])

/-- Witness: the `STREAM_SUBSCRIBE` theorem applied to a concrete request. -/
theorem c2_witness :
    (process_client_request envW (.ok reqStream)).length =
      streamChunksW.length + 1 ∧
    (∀ i : Nat, i < streamChunksW.length →
      ((process_client_request envW (.ok reqStream)).getD i
        noEnvelope).status = "STREAMING_CHUNK" ∧
      (((process_client_request envW (.ok reqStream)).getD i
          noEnvelope).payload.lookup "stream_chunk").bind
        (fun c => c.lookup "sequence") = some (.num (Int.ofNat i))) ∧
    ((process_client_request envW (.ok reqStream)).getD streamChunksW.length
      noEnvelope).status = "COMPLETED" ∧
    ((process_client_request envW (.ok reqStream)).getD streamChunksW.length
      noEnvelope).payload = .obj [("message", .str "Stream finished.")] :=
  c2_stream_subscribe_chunks_then_completed envW reqStream
    (.obj [("request_id", .str "r2")]) (.str "r2")
    (.obj [("topic", .str "t1")]) streamChunksW rfl rfl rfl rfl rfl

/-- A well-formed `EXECUTE_COMMAND` request used as concrete instance. -/
def reqCommand : JValue := .obj [
  ("header", .obj [("request_id", .str "r4")]),
  ("type", .str "EXECUTE_COMMAND"),
  ("payload", .obj [("command", .str "deploy")])]

/-- Witness: the `EXECUTE_COMMAND` theorem applied to a concrete request. -/
theorem c4_witness :
    ∃ (pre : List JValue) (resultPayload : JValue),
      process_client_request envW (.ok reqCommand) =
        pre.map (fun p =>
          ⟨mkResponseHeader (.str "r4") envW.headerTs, "STREAMING_CHUNK",
            .obj [("progress_update", p)]⟩) ++
        [⟨mkResponseHeader (.str "r4") envW.headerTs, "STREAMING_CHUNK",
          .obj [("command_result", resultPayload)]⟩,
         ⟨mkResponseHeader (.str "r4") envW.headerTs, "COMPLETED",
          .obj [("message", .str "Command finished.")]⟩] :=
  c4_execute_command_shape envW reqCommand
    (.obj [("request_id", .str "r4")]) (.str "r4")
    (.obj [("command", .str "deploy")]) (.str "deploy") rfl rfl rfl rfl rfl

/-- A request with an unrecognized type used as concrete instance. -/
def reqBogus : JValue := .obj [
  ("header", .obj [("request_id", .str "r6")]),
  ("type", .str "BOGUS_TYPE")]

/-- Witness: the unrecognized-type theorem applied to `type = "BOGUS_TYPE"`. -/
theorem c6_witness :
    process_client_request envW (.ok reqBogus) =
      [errorEnvelope envW (some (.str "r6"))
        ("Unknown request type: " ++ pyStr (.str "BOGUS_TYPE"))] ∧
    (process_client_request envW (.ok reqBogus)).length = 1 ∧
    ((process_client_request envW (.ok reqBogus)).headD noEnvelope).status =
      "ERROR" ∧
    ((process_client_request envW (.ok reqBogus)).headD
      noEnvelope).header.lookup "request_id" = some (.str "r6") :=
  c6_unrecognized_type_single_error envW reqBogus
    (.obj [("request_id", .str "r6")]) (.str "r6") (.str "BOGUS_TYPE")
    (.obj []) rfl rfl rfl rfl (by simp) (by simp) (by simp)

/-- Witness: the non-mapping-header theorem applied to
`{"header": "x"}`. -/
theorem c10_witness :
    process_client_request envW (.ok (.obj [("header", .str "x")])) =
      [errorEnvelope envW none
        ("'" ++ typeName (.str "x") ++ "' object has no attribute 'get'")] ∧
    (process_client_request envW
      (.ok (.obj [("header", .str "x")]))).length = 1 ∧
    ((process_client_request envW
      (.ok (.obj [("header", .str "x")]))).headD noEnvelope).status =
      "ERROR" ∧
    ((process_client_request envW
      (.ok (.obj [("header", .str "x")]))).headD
      noEnvelope).header.lookup "request_id" = some (.str "unknown") :=
  c10_nonmapping_header_unknown_id envW [("header", .str "x")] (.str "x")
    rfl rfl

/-- Witness: the shared-header theorem applied to a concrete stream
request. -/
theorem c7_witness :
    ∃ h : JValue,
      (∀ e ∈ process_client_request envW (.ok reqStream), e.header = h) ∧
      h.lookup "source_node" = some (.str sourceNode) ∧
      h.lookup "timestamp_utc" =
        some (.str (match runBody envW (.ok reqStream) with
          | .ok _ => envW.headerTs
          | .error _ => envW.errorTs)) :=
  c7_single_header_per_response envW (.ok reqStream)

/-- Environment whose UUID draw is distinguishable from the empty string. -/
def env8 : Env := ⟨"u-123", "T1", "T2", fun _ => "N0"⟩

/-- A request whose `header.request_id` is present but the empty string. -/
def reqEmptyId : JValue := .obj [
  ("header", .obj [("request_id", .str "")]),
  ("type", .str "ONE_TIME_QUERY"),
  ("payload", .obj [])]

/-- C8 as stated is false: when `request_id` is present but the empty
string, the emitted header carries `""` — the fresh UUID (`"u-123"` in
this environment) is NOT substituted, because the UUID is only the `.get`
default for an absent key. -/
theorem c8_counterexample :
    ((process_client_request env8 (.ok reqEmptyId)).headD
      noEnvelope).header.lookup "request_id" = some (.str "") ∧
    ¬ (((process_client_request env8 (.ok reqEmptyId)).headD
      noEnvelope).header.lookup "request_id" =
        some (.str env8.freshUuid)) := by
  refine ⟨rfl, ?_⟩
  intro h
  have h1 : ((process_client_request env8 (.ok reqEmptyId)).headD
      noEnvelope).header.lookup "request_id" = some (.str "") := rfl
  have h2 : some (JValue.str "") = some (JValue.str env8.freshUuid) :=
    h1 ▸ h
  simp [env8] at h2

/-- C8 amended: the extracted `request_id` is the header's `request_id`
value whenever the key is present — even when it is the empty string —
and the fresh UUID only when the key (or the whole `header` field) is
absent; `payload` defaults to the empty mapping exactly when absent. -/
theorem c8_amended_request_id_default (env : Env)
    (fields : List (String × JValue)) :
    (∀ hfields : List (String × JValue),
      lookupLast fields "header" = some (.obj hfields) →
      (∀ v, lookupLast hfields "request_id" = some v →
        extractRequestId env (.obj fields) = .ok v) ∧
      (lookupLast hfields "request_id" = none →
        extractRequestId env (.obj fields) = .ok (.str env.freshUuid))) ∧
    (lookupLast fields "header" = none →
      extractRequestId env (.obj fields) = .ok (.str env.freshUuid)) ∧
    (lookupLast fields "payload" = none →
      pyGet (.obj fields) "payload" (.obj []) = .ok (.obj [])) := by
  refine ⟨?_, ?_, ?_⟩
  · intro hfields hh
    constructor
    · intro v hv
      unfold extractRequestId
      simp [pyGet, hh, hv, bind, Except.bind]
    · intro hv
      unfold extractRequestId
      simp [pyGet, hh, hv, bind, Except.bind]
  · intro hh
    unfold extractRequestId
    simp [pyGet, hh, bind, Except.bind, lookupLast]
  · intro hp
    simp [pyGet, hp]

/-- Witness: the amended extraction rule applied to a request whose
`request_id` is the empty string: the empty string is kept. -/
theorem c8_witness :
    extractRequestId env8
      (.obj [("header", .obj [("request_id", .str "")])]) = .ok (.str "") :=
  ((c8_amended_request_id_default env8
      [("header", .obj [("request_id", .str "")])]).1
    [("request_id", .str "")] rfl).1 (.str "") rfl

/-- Environment for the spec's worked example. -/
def env9 : Env := ⟨"u-999", "T1", "T2", fun i => "NOW" ++ toString i⟩

/-- The spec's example input:
`{"header":{"request_id":"r1"},"type":"ONE_TIME_QUERY",
  "payload":{"endpoint":"e1","id":"u1"}}`. -/
def reqSpecExample : JValue := .obj [
  ("header", .obj [("request_id", .str "r1")]),
  ("type", .str "ONE_TIME_QUERY"),
  ("payload", .obj [("endpoint", .str "e1"), ("id", .str "u1")])]

/-- C9 as stated is false: at the spec's example input the emitted
`payload.data.user_id` is `"N/A"`, not `"u1"` — the adapter reads `id`
from `payload["params"]`, which is absent here, not from the payload's
top level. -/
theorem c9_counterexample :
    (((process_client_request env9 (.ok reqSpecExample)).headD
        noEnvelope).payload.lookup "data").bind
      (fun d => d.lookup "user_id") = some (.str "N/A") ∧
    ¬ ((((process_client_request env9 (.ok reqSpecExample)).headD
        noEnvelope).payload.lookup "data").bind
      (fun d => d.lookup "user_id") = some (.str "u1")) := by
  refine ⟨rfl, ?_⟩
  intro h
  have h1 : (((process_client_request env9 (.ok reqSpecExample)).headD
        noEnvelope).payload.lookup "data").bind
      (fun d => d.lookup "user_id") = some (.str "N/A") := rfl
  have h2 : some (JValue.str "N/A") = some (JValue.str "u1") := h1 ▸ h
  simp at h2

/-- C9 amended: at the spec's example input the output has length 1 with
status COMPLETED, `header.request_id = "r1"`,
`payload.data.endpoint = "e1"`, and `payload.data.user_id = "N/A"` (not
`"u1"`). -/
theorem c9_amended_spec_example :
    (process_client_request env9 (.ok reqSpecExample)).length = 1 ∧
    ((process_client_request env9 (.ok reqSpecExample)).headD
      noEnvelope).status = "COMPLETED" ∧
    ((process_client_request env9 (.ok reqSpecExample)).headD
      noEnvelope).header.lookup "request_id" = some (.str "r1") ∧
    (((process_client_request env9 (.ok reqSpecExample)).headD
        noEnvelope).payload.lookup "data").bind
      (fun d => d.lookup "endpoint") = some (.str "e1") ∧
    (((process_client_request env9 (.ok reqSpecExample)).headD
        noEnvelope).payload.lookup "data").bind
      (fun d => d.lookup "user_id") = some (.str "N/A") :=
  ⟨rfl, rfl, rfl, rfl, rfl⟩
